import Mathlib

/-!
Shallow embedding of `ucsc_apis/admin/ldap.py`, an LDAP administration facade
over a remote managed-object tree reached through a session handle.

Each Python facade function becomes a Lean function from an explicit
`RemoteState` to an `OpOutcome`: the Python return value or raised exception
(`Except PyError`), the remote state after the call, and the ordered list of
SDK calls issued on the handle.  The handle primitives (`query_dn`, `add_mo`,
`set_mo`, `remove_mo`, `commit`) and the managed-object constructors live in
the external `ucscsdk` package; they are modelled from the spec's inbound
contract.  The locale helpers live in this repository's `admin/locale.py`,
which is not part of the sources here; they are modelled from the spec.
-/

set_option autoImplicit false

namespace UcscLdap

/-- A managed object: its distinguished name and its ordered property list.
A property value of `none` models Python `None`. -/
structure Mo where
  dn : String
  props : List (String × Option String)
deriving Repr, DecidableEq

/-- Remote system state: the managed-object tree (each object addressed by its
`dn`) together with the externally owned locale registry (the set of locale
names that exist), which the facade consults for cross-reference checks. -/
structure RemoteState where
  tree : List Mo
  locales : List String
deriving Repr, DecidableEq

/-- One call issued on the session handle. -/
inductive SdkCall where
  | queryDn (dn : String)
  | addMo (mo : Mo) (replace : Bool)
  | setMo (mo : Mo)
  | removeMo (mo : Mo)
  | commit
deriving Repr, DecidableEq

/-- `true` exactly for the read-only handle call. -/
def SdkCall.isQuery : SdkCall → Bool
  | .queryDn _ => true
  | _ => false

/-- A Python exception as raised by the module: `UcscOperationError` carries
the operation name and a reason; `NameError` models the interpreter error on
an unbound module-level name. -/
inductive PyError where
  | ucscOperationError (op : String) (reason : String)
  | nameError (missing : String)
deriving Repr, DecidableEq

/-- Outcome of one facade call: returned value or raised exception, the remote
state afterwards, and the SDK calls issued on the handle, in order. -/
structure OpOutcome (α : Type) where
  result : Except PyError α
  state : RemoteState
  calls : List SdkCall
deriving Repr

/-- Modelled from the spec: `query_dn(path) -> object|empty` returns the
managed object at that path if the remote tree has it. -/
def query_dn (s : RemoteState) (dn : String) : Option Mo :=
  s.tree.find? (fun mo => mo.dn == dn)

/-- Modelled from the spec: `add_mo(object, replace_if_exists)` with
add-with-replace semantics — an idempotent overwrite if already present. -/
def add_mo (s : RemoteState) (mo : Mo) (_replace : Bool) : RemoteState :=
  { s with tree := mo :: s.tree.filter (fun m => m.dn != mo.dn) }

/-- Modelled from the spec: `set_mo(object)` submits the updated object,
replacing the stored object at the same path. -/
def set_mo (s : RemoteState) (mo : Mo) : RemoteState :=
  { s with tree := s.tree.map (fun m => if m.dn == mo.dn then mo else m) }

/-- Modelled from the spec: `remove_mo(object)` removes the object at the
object's path from the remote tree. -/
def remove_mo (s : RemoteState) (mo : Mo) : RemoteState :=
  { s with tree := s.tree.filter (fun m => m.dn != mo.dn) }

/-- Set one property, overriding a same-named existing field in place,
appending a new field otherwise (the behaviour of Python attribute
assignment on the managed object). -/
def setProp : List (String × Option String) → String → Option String →
    List (String × Option String)
  | [], k, v => [(k, v)]
  | p :: ps, k, v => if p.1 == k then (k, v) :: ps else p :: setProp ps k v

/-- Modelled from the spec: `set_prop_multiple(**kwargs)` applies an
open-ended map of extra fields on top, later values overriding same-named
base fields. -/
def setPropMultiple (ps : List (String × Option String))
    (kwargs : List (String × Option String)) : List (String × Option String) :=
  kwargs.foldl (fun acc kv => setProp acc kv.1 kv.2) ps

/-- The value of a property of a managed object, `none` when the object has no
such property. -/
def lookupProp (ps : List (String × Option String)) (k : String) :
    Option (Option String) :=
  (ps.find? (fun p => p.1 == k)).map (fun p => p.2)

/-- Modelled from the spec: `check_prop_match(**kwargs)` compares every
supplied expected attribute against the object's actual attribute. -/
def check_prop_match (mo : Mo) (kwargs : List (String × Option String)) : Bool :=
  kwargs.all (fun kv => lookupProp mo.props kv.1 == some kv.2)

/-- Modelled from the spec: the fixed administrative base path computed once
from the "default" device profile lookup (`get_device_profile_dn`). -/
def ucsc_base_dn : String := "org-root/deviceprofile-default"

/-- Modelled from the spec: the locale-lookup collaborator
`locale_exists(name) -> (bool, object|none)` over the externally owned locale
registry. -/
def locale_exists (s : RemoteState) (name : String) : Bool × Option Mo :=
  if s.locales.contains name then
    (true, some { dn := "sys/user-ext/locale-" ++ name, props := [("name", some name)] })
  else
    (false, none)

/-- Modelled from the spec: the `AaaLdapProvider` managed-object constructor —
the child's path is the parent path plus the per-type segment `provider-` and
the key, its properties are the named parameters. -/
def AaaLdapProvider (parentDn name : String)
    (order rootdn basedn port enable_ssl filter attr key timeout vendor
     retries descr : Option String) : Mo :=
  { dn := parentDn ++ "/provider-" ++ name,
    props := [("name", some name), ("order", order), ("rootdn", rootdn),
              ("basedn", basedn), ("port", port), ("enable_ssl", enable_ssl),
              ("filter", filter), ("attribute", attr), ("key", key),
              ("timeout", timeout), ("vendor", vendor), ("retries", retries),
              ("descr", descr)] }

/-- `ldap_provider_create` (ldap.py lines 23-84): queries the fixed
`ldap-ext` base path, raises if the base managed object is absent, otherwise
builds the provider from the named parameters, applies the kwargs overrides,
submits an add-with-replace and commits. -/
def ldap_provider_create (s : RemoteState) (name : String)
    (order : Option String := some "lowest-available")
    (rootdn : Option String := none)
    (basedn : Option String := some "")
    (port : Option String := some "389")
    (enable_ssl : Option String := some "no")
    (filter : Option String := none)
    (attr : Option String := none)
    (key : Option String := none)
    (timeout : Option String := some "30")
    (vendor : Option String := some "OpenLdap")
    (retries : Option String := some "1")
    (descr : Option String := none)
    (kwargs : List (String × Option String) := []) : OpOutcome Mo :=
  let dn := ucsc_base_dn ++ "/ldap-ext"
  match query_dn s dn with
  | none =>
      { result := .error (.ucscOperationError "ldap_provider_create"
                    "LDAP MO doesn't exist"),
        state := s, calls := [.queryDn dn] }
  | some _ =>
      let mo0 := AaaLdapProvider dn name order rootdn basedn port enable_ssl
                   filter attr key timeout vendor retries descr
      let mo : Mo := { mo0 with props := setPropMultiple mo0.props kwargs }
      { result := .ok mo,
        state := add_mo s mo true,
        calls := [.queryDn dn, .addMo mo true, .commit] }

/-- `ldap_provider_get` (ldap.py lines 87-103): builds the provider path and
issues a single query. -/
def ldap_provider_get (s : RemoteState) (name : String) : OpOutcome (Option Mo) :=
  let dn := ucsc_base_dn ++ "/ldap-ext/provider-" ++ name
  { result := .ok (query_dn s dn), state := s, calls := [.queryDn dn] }

/-- `ldap_provider_exists` (ldap.py lines 106-128): calls get; `(False, None)`
when absent, otherwise compares the expected attributes. -/
def ldap_provider_exists (s : RemoteState) (name : String)
    (kwargs : List (String × Option String) := []) : OpOutcome (Bool × Option Mo) :=
  let g := ldap_provider_get s name
  match g.result with
  | .error e => { result := .error e, state := g.state, calls := g.calls }
  | .ok none => { result := .ok (false, none), state := g.state, calls := g.calls }
  | .ok (some mo) =>
      let mo_exists := check_prop_match mo kwargs
      { result := .ok (mo_exists, if mo_exists then some mo else none),
        state := g.state, calls := g.calls }

/-- `ldap_provider_modify` (ldap.py lines 131-160): calls get, raises when the
provider is absent, otherwise applies the kwargs, submits a set and commits. -/
def ldap_provider_modify (s : RemoteState) (name : String)
    (kwargs : List (String × Option String) := []) : OpOutcome Mo :=
  let g := ldap_provider_get s name
  match g.result with
  | .error e => { result := .error e, state := g.state, calls := g.calls }
  | .ok none =>
      { result := .error (.ucscOperationError "ldap_provider_modify"
                    "Ldap Provider does not exist"),
        state := g.state, calls := g.calls }
  | .ok (some mo0) =>
      let mo : Mo := { mo0 with props := setPropMultiple mo0.props kwargs }
      { result := .ok mo,
        state := set_mo g.state mo,
        calls := g.calls ++ [.setMo mo, .commit] }

/-- `ldap_provider_delete` (ldap.py lines 163-187): calls get, raises when the
provider is absent, otherwise submits a remove and commits. -/
def ldap_provider_delete (s : RemoteState) (name : String) : OpOutcome Unit :=
  let g := ldap_provider_get s name
  match g.result with
  | .error e => { result := .error e, state := g.state, calls := g.calls }
  | .ok none =>
      { result := .error (.ucscOperationError "ldap_provider_delete"
                    "Ldap Provider does not exist"),
        state := g.state, calls := g.calls }
  | .ok (some mo) =>
      { result := .ok (),
        state := remove_mo g.state mo,
        calls := g.calls ++ [.removeMo mo, .commit] }

/-- Modelled from the spec: the `AaaLdapGroupRule` constructor — the unkeyed
group-rule child of a provider, with a fixed path segment and no initial
properties (the facade sets every property afterwards). -/
def AaaLdapGroupRule (parentDn : String) : Mo :=
  { dn := parentDn ++ "/ldap-group-rule", props := [] }

/-- `ldap_provider_group_rules_configure` (ldap.py lines 190-239): queries the
provider path, raises when the provider is absent, otherwise builds a fresh
group-rule child, applies the named arguments and then the kwargs, submits an
add-with-replace and commits. -/
def ldap_provider_group_rules_configure (s : RemoteState)
    (ldap_provider_name : String)
    (authorization : Option String := none)
    (traversal : Option String := none)
    (target_attr : Option String := none)
    (name : Option String := none)
    (descr : Option String := none)
    (kwargs : List (String × Option String) := []) : OpOutcome Mo :=
  let dn := ucsc_base_dn ++ "/ldap-ext/provider-" ++ ldap_provider_name
  match query_dn s dn with
  | none =>
      { result := .error (.ucscOperationError "ldap_provider_group_rules_configure"
                    "Ldap Provider does not exist."),
        state := s, calls := [.queryDn dn] }
  | some obj =>
      let mo0 := AaaLdapGroupRule obj.dn
      let args : List (String × Option String) :=
        [("authorization", authorization), ("traversal", traversal),
         ("target_attr", target_attr), ("name", name), ("descr", descr)]
      let mo : Mo := { mo0 with props := setPropMultiple (setPropMultiple mo0.props args) kwargs }
      { result := .ok mo,
        state := add_mo s mo true,
        calls := [.queryDn dn, .addMo mo true, .commit] }

/-- Modelled from the spec: the `AaaLdapGroup` constructor — per-type segment
`ldapgroup-`. -/
def AaaLdapGroup (parentDn name : String) (descr : Option String) : Mo :=
  { dn := parentDn ++ "/ldapgroup-" ++ name,
    props := [("name", some name), ("descr", descr)] }

/-- `ldap_group_map_create` (ldap.py lines 242-269): builds the group map
under the base path with no parent existence check, applies the kwargs,
submits an add-with-replace and commits. -/
def ldap_group_map_create (s : RemoteState) (name : String)
    (descr : Option String := none)
    (kwargs : List (String × Option String) := []) : OpOutcome Mo :=
  let mo0 := AaaLdapGroup (ucsc_base_dn ++ "/ldap-ext") name descr
  let mo : Mo := { mo0 with props := setPropMultiple mo0.props kwargs }
  { result := .ok mo,
    state := add_mo s mo true,
    calls := [.addMo mo true, .commit] }

/-- `ldap_group_map_get` (ldap.py lines 272-288): builds the group-map path
and issues a single query. -/
def ldap_group_map_get (s : RemoteState) (name : String) : OpOutcome (Option Mo) :=
  let dn := ucsc_base_dn ++ "/ldap-ext/ldapgroup-" ++ name
  { result := .ok (query_dn s dn), state := s, calls := [.queryDn dn] }

/-- `ldap_group_map_exists` (ldap.py lines 291-313): calls get; `(False, None)`
when absent, otherwise compares the expected attributes. -/
def ldap_group_map_exists (s : RemoteState) (name : String)
    (kwargs : List (String × Option String) := []) : OpOutcome (Bool × Option Mo) :=
  let g := ldap_group_map_get s name
  match g.result with
  | .error e => { result := .error e, state := g.state, calls := g.calls }
  | .ok none => { result := .ok (false, none), state := g.state, calls := g.calls }
  | .ok (some mo) =>
      let mo_exists := check_prop_match mo kwargs
      { result := .ok (mo_exists, if mo_exists then some mo else none),
        state := g.state, calls := g.calls }

/-- `ldap_group_map_delete` (ldap.py lines 316-340): calls get, raises when the
group map is absent, otherwise submits a remove and commits. -/
def ldap_group_map_delete (s : RemoteState) (name : String) : OpOutcome Unit :=
  let g := ldap_group_map_get s name
  match g.result with
  | .error e => { result := .error e, state := g.state, calls := g.calls }
  | .ok none =>
      { result := .error (.ucscOperationError "ldap_group_map_delete"
                    "Ldap Group does not exist"),
        state := g.state, calls := g.calls }
  | .ok (some mo) =>
      { result := .ok (),
        state := remove_mo g.state mo,
        calls := g.calls ++ [.removeMo mo, .commit] }

/-- Modelled from the spec: the `AaaUserRole` constructor — per-type segment
`role-` under a group map. -/
def AaaUserRole (parentDn name : String) (descr : Option String) : Mo :=
  { dn := parentDn ++ "/role-" ++ name,
    props := [("name", some name), ("descr", descr)] }

/-- `ldap_group_map_role_add` (ldap.py lines 343-378): queries the group-map
path, raises when the group map is absent, otherwise builds the role child,
applies the kwargs, submits an add-with-replace and commits. -/
def ldap_group_map_role_add (s : RemoteState) (ldap_group_map_name name : String)
    (descr : Option String := none)
    (kwargs : List (String × Option String) := []) : OpOutcome Mo :=
  let dn := ucsc_base_dn ++ "/ldap-ext/ldapgroup-" ++ ldap_group_map_name
  match query_dn s dn with
  | none =>
      { result := .error (.ucscOperationError "ldap_group_map_role_add"
                    ("Ldap Group map '" ++ dn ++ "' does not exist")),
        state := s, calls := [.queryDn dn] }
  | some obj =>
      let mo0 := AaaUserRole obj.dn name descr
      let mo : Mo := { mo0 with props := setPropMultiple mo0.props kwargs }
      { result := .ok mo,
        state := add_mo s mo true,
        calls := [.queryDn dn, .addMo mo true, .commit] }

/-- `ldap_group_map_role_get` (ldap.py lines 381-401): builds the role path
under the group map and issues a single query. -/
def ldap_group_map_role_get (s : RemoteState) (ldap_group_map_name name : String) :
    OpOutcome (Option Mo) :=
  let ldap_dn := ucsc_base_dn ++ "/ldap-ext/ldapgroup-" ++ ldap_group_map_name
  let dn := ldap_dn ++ "/role-" ++ name
  { result := .ok (query_dn s dn), state := s, calls := [.queryDn dn] }

/-- `ldap_group_map_role_exists` (ldap.py lines 404-429): calls get;
`(False, None)` when absent, otherwise compares the expected attributes. -/
def ldap_group_map_role_exists (s : RemoteState) (ldap_group_map_name name : String)
    (kwargs : List (String × Option String) := []) : OpOutcome (Bool × Option Mo) :=
  let g := ldap_group_map_role_get s ldap_group_map_name name
  match g.result with
  | .error e => { result := .error e, state := g.state, calls := g.calls }
  | .ok none => { result := .ok (false, none), state := g.state, calls := g.calls }
  | .ok (some mo) =>
      let mo_exists := check_prop_match mo kwargs
      { result := .ok (mo_exists, if mo_exists then some mo else none),
        state := g.state, calls := g.calls }

/-- `ldap_group_map_role_remove` (ldap.py lines 432-459): calls get, raises
when the role is absent, otherwise submits a remove and commits (no
cross-reference re-check of any kind). -/
def ldap_group_map_role_remove (s : RemoteState) (ldap_group_map_name name : String) :
    OpOutcome Unit :=
  let g := ldap_group_map_role_get s ldap_group_map_name name
  match g.result with
  | .error e => { result := .error e, state := g.state, calls := g.calls }
  | .ok none =>
      { result := .error (.ucscOperationError "ldap_group_map_role_remove"
                    "Ldap Group Role does not exist"),
        state := g.state, calls := g.calls }
  | .ok (some mo) =>
      { result := .ok (),
        state := remove_mo g.state mo,
        calls := g.calls ++ [.removeMo mo, .commit] }

/-- Modelled from the spec: the `AaaUserLocale` constructor — per-type segment
`locale-` under a group map. -/
def AaaUserLocale (parentDn name : String) (descr : Option String) : Mo :=
  { dn := parentDn ++ "/locale-" ++ name,
    props := [("name", some name), ("descr", descr)] }

/-- `ldap_group_map_locale_add` (ldap.py lines 462-501): queries the
group-map path and raises when the group map is absent; then checks the named
locale against the external locale registry via `locale_exists` and raises
when it does not exist; otherwise builds the locale child, applies the
kwargs, submits an add-with-replace and commits. -/
def ldap_group_map_locale_add (s : RemoteState) (ldap_group_map_name name : String)
    (descr : Option String := none)
    (kwargs : List (String × Option String) := []) : OpOutcome Mo :=
  let dn := ucsc_base_dn ++ "/ldap-ext/ldapgroup-" ++ ldap_group_map_name
  match query_dn s dn with
  | none =>
      { result := .error (.ucscOperationError "ldap_group_map_locale_add"
                    ("Ldap Group map '" ++ dn ++ "' does not exist")),
        state := s, calls := [.queryDn dn] }
  | some obj =>
      if !(locale_exists s name).1 then
        { result := .error (.ucscOperationError "ldap_group_map_locale_add"
                      ("Locale '" ++ name ++ "' does not exist")),
          state := s, calls := [.queryDn dn] }
      else
        let mo0 := AaaUserLocale obj.dn name descr
        let mo : Mo := { mo0 with props := setPropMultiple mo0.props kwargs }
        { result := .ok mo,
          state := add_mo s mo true,
          calls := [.queryDn dn, .addMo mo true, .commit] }

/-- `ldap_group_map_locale_get` (ldap.py lines 504-524): builds the locale
path under the group map and issues a single query. -/
def ldap_group_map_locale_get (s : RemoteState) (ldap_group_map_name name : String) :
    OpOutcome (Option Mo) :=
  let ldap_dn := ucsc_base_dn ++ "/ldap-ext/ldapgroup-" ++ ldap_group_map_name
  let dn := ldap_dn ++ "/locale-" ++ name
  { result := .ok (query_dn s dn), state := s, calls := [.queryDn dn] }

/-- `ldap_group_map_locale_exists` (ldap.py lines 527-552): calls get;
`(False, None)` when absent, otherwise compares the expected attributes. -/
def ldap_group_map_locale_exists (s : RemoteState) (ldap_group_map_name name : String)
    (kwargs : List (String × Option String) := []) : OpOutcome (Bool × Option Mo) :=
  let g := ldap_group_map_locale_get s ldap_group_map_name name
  match g.result with
  | .error e => { result := .error e, state := g.state, calls := g.calls }
  | .ok none => { result := .ok (false, none), state := g.state, calls := g.calls }
  | .ok (some mo) =>
      let mo_exists := check_prop_match mo kwargs
      { result := .ok (mo_exists, if mo_exists then some mo else none),
        state := g.state, calls := g.calls }

/-- `ldap_group_map_locale_remove` (ldap.py lines 555-585): calls get and
raises when the locale mapping is absent.  When the mapping is present, the
source then evaluates `locale_get(handle, name=name)[0]` — but the module
imports only `locale_exists` (ldap.py line 18) and never defines or imports a
module-level name `locale_get`, so at run time every call that reaches this
line raises `NameError: name 'locale_get' is not defined` before any locale
lookup, remove or commit can happen. -/
def ldap_group_map_locale_remove (s : RemoteState) (ldap_group_map_name name : String) :
    OpOutcome Unit :=
  let g := ldap_group_map_locale_get s ldap_group_map_name name
  match g.result with
  | .error e => { result := .error e, state := g.state, calls := g.calls }
  | .ok none =>
      { result := .error (.ucscOperationError "ldap_group_map_locale_remove"
                    "Ldap Group Locale does not exist"),
        state := g.state, calls := g.calls }
  | .ok (some _mo) =>
      { result := .error (.nameError "locale_get"),
        state := g.state, calls := g.calls }

/-- Modelled from the spec: the `AaaProviderGroup` constructor — per-type
segment `providergroup-`. -/
def AaaProviderGroup (parentDn name : String) (descr : Option String) : Mo :=
  { dn := parentDn ++ "/providergroup-" ++ name,
    props := [("name", some name), ("descr", descr)] }

/-- `ldap_provider_group_create` (ldap.py lines 587-615): builds the provider
group under the base path with no parent existence check, applies the kwargs,
submits an add-with-replace and commits. -/
def ldap_provider_group_create (s : RemoteState) (name : String)
    (descr : Option String := none)
    (kwargs : List (String × Option String) := []) : OpOutcome Mo :=
  let mo0 := AaaProviderGroup (ucsc_base_dn ++ "/ldap-ext") name descr
  let mo : Mo := { mo0 with props := setPropMultiple mo0.props kwargs }
  { result := .ok mo,
    state := add_mo s mo true,
    calls := [.addMo mo true, .commit] }

/-- `ldap_provider_group_get` (ldap.py lines 618-634): builds the
provider-group path and issues a single query. -/
def ldap_provider_group_get (s : RemoteState) (name : String) : OpOutcome (Option Mo) :=
  let dn := ucsc_base_dn ++ "/ldap-ext/providergroup-" ++ name
  { result := .ok (query_dn s dn), state := s, calls := [.queryDn dn] }

/-- `ldap_provider_group_exists` (ldap.py lines 637-659): calls get;
`(False, None)` when absent, otherwise compares the expected attributes. -/
def ldap_provider_group_exists (s : RemoteState) (name : String)
    (kwargs : List (String × Option String) := []) : OpOutcome (Bool × Option Mo) :=
  let g := ldap_provider_group_get s name
  match g.result with
  | .error e => { result := .error e, state := g.state, calls := g.calls }
  | .ok none => { result := .ok (false, none), state := g.state, calls := g.calls }
  | .ok (some mo) =>
      let mo_exists := check_prop_match mo kwargs
      { result := .ok (mo_exists, if mo_exists then some mo else none),
        state := g.state, calls := g.calls }

/-- `ldap_provider_group_delete` (ldap.py lines 662-687): calls get, raises
when the provider group is absent, otherwise submits a remove and commits. -/
def ldap_provider_group_delete (s : RemoteState) (name : String) : OpOutcome Unit :=
  let g := ldap_provider_group_get s name
  match g.result with
  | .error e => { result := .error e, state := g.state, calls := g.calls }
  | .ok none =>
      { result := .error (.ucscOperationError "ldap_provider_group_delete"
                    "Provider  Group does not exist."),
        state := g.state, calls := g.calls }
  | .ok (some mo) =>
      { result := .ok (),
        state := remove_mo g.state mo,
        calls := g.calls ++ [.removeMo mo, .commit] }

/-- Modelled from the spec: the `AaaProviderRef` constructor — per-type
segment `provider-ref-` under a provider group. -/
def AaaProviderRef (parentDn name : String) (order descr : Option String) : Mo :=
  { dn := parentDn ++ "/provider-ref-" ++ name,
    props := [("name", some name), ("order", order), ("descr", descr)] }

/-- `ldap_provider_group_provider_add` (ldap.py lines 690-741): queries the
provider-group path and raises when the group is absent; then queries the
referenced provider's path and raises when the provider is absent; otherwise
builds the reference child, applies the kwargs, submits an add-with-replace
and commits. -/
def ldap_provider_group_provider_add (s : RemoteState) (group_name name : String)
    (order : Option String := some "lowest-available")
    (descr : Option String := none)
    (kwargs : List (String × Option String) := []) : OpOutcome Mo :=
  let group_dn := ucsc_base_dn ++ "/ldap-ext/providergroup-" ++ group_name
  match query_dn s group_dn with
  | none =>
      { result := .error (.ucscOperationError "ldap_provider_group_provider_add"
                    "Ldap Provider Group does not exist."),
        state := s, calls := [.queryDn group_dn] }
  | some group_mo =>
      let provider_dn := ucsc_base_dn ++ "/ldap-ext/provider-" ++ name
      match query_dn s provider_dn with
      | none =>
          { result := .error (.ucscOperationError "ldap_provider_group_provider_add"
                        "Ldap Provider does not exist."),
            state := s, calls := [.queryDn group_dn, .queryDn provider_dn] }
      | some _provider_mo =>
          let mo0 := AaaProviderRef group_mo.dn name order descr
          let mo : Mo := { mo0 with props := setPropMultiple mo0.props kwargs }
          { result := .ok mo,
            state := add_mo s mo true,
            calls := [.queryDn group_dn, .queryDn provider_dn, .addMo mo true, .commit] }

/-- `ldap_provider_group_provider_get` (ldap.py lines 744-765): builds the
reference path under the provider group and issues a single query. -/
def ldap_provider_group_provider_get (s : RemoteState) (group_name name : String) :
    OpOutcome (Option Mo) :=
  let group_dn := ucsc_base_dn ++ "/ldap-ext/providergroup-" ++ group_name
  let provider_dn := group_dn ++ "/provider-ref-" ++ name
  { result := .ok (query_dn s provider_dn), state := s, calls := [.queryDn provider_dn] }

/-- `ldap_provider_group_provider_exists` (ldap.py lines 768-794): calls get;
`(False, None)` when absent, otherwise compares the expected attributes. -/
def ldap_provider_group_provider_exists (s : RemoteState) (group_name name : String)
    (kwargs : List (String × Option String) := []) : OpOutcome (Bool × Option Mo) :=
  let g := ldap_provider_group_provider_get s group_name name
  match g.result with
  | .error e => { result := .error e, state := g.state, calls := g.calls }
  | .ok none => { result := .ok (false, none), state := g.state, calls := g.calls }
  | .ok (some mo) =>
      let mo_exists := check_prop_match mo kwargs
      { result := .ok (mo_exists, if mo_exists then some mo else none),
        state := g.state, calls := g.calls }

/-- `ldap_provider_group_provider_modify` (ldap.py lines 797-830): calls get
on the reference object, raises when it is absent, otherwise applies the
kwargs, submits a set and commits — no re-check of the referenced provider. -/
def ldap_provider_group_provider_modify (s : RemoteState) (group_name name : String)
    (kwargs : List (String × Option String) := []) : OpOutcome Mo :=
  let g := ldap_provider_group_provider_get s group_name name
  match g.result with
  | .error e => { result := .error e, state := g.state, calls := g.calls }
  | .ok none =>
      { result := .error (.ucscOperationError "ldap_provider_group_provider_modify"
                    "Provider not available under group."),
        state := g.state, calls := g.calls }
  | .ok (some mo0) =>
      let mo : Mo := { mo0 with props := setPropMultiple mo0.props kwargs }
      { result := .ok mo,
        state := set_mo g.state mo,
        calls := g.calls ++ [.setMo mo, .commit] }

/-- `ldap_provider_group_provider_remove` (ldap.py lines 833-860): calls get
on the reference object, raises when it is absent, otherwise submits a remove
and commits — no re-check of the referenced provider. -/
def ldap_provider_group_provider_remove (s : RemoteState) (group_name name : String) :
    OpOutcome Unit :=
  let g := ldap_provider_group_provider_get s group_name name
  match g.result with
  | .error e => { result := .error e, state := g.state, calls := g.calls }
  | .ok none =>
      { result := .error (.ucscOperationError "ldap_provider_group_provider_remove"
                    "Provider not available under group."),
        state := g.state, calls := g.calls }
  | .ok (some mo) =>
      { result := .ok (),
        state := remove_mo g.state mo,
        calls := g.calls ++ [.removeMo mo, .commit] }

/-! ### Helper lemmas about the remote-state primitives and property lists -/

/-- The last binding of a key in an open-ended attribute map: the value that
survives when the map is applied left to right. -/
def lastAssoc : List (String × Option String) → String → Option (Option String)
  | [], _ => none
  | kv :: rest, k =>
    match lastAssoc rest k with
    | some v => some v
    | none => if kv.1 == k then some kv.2 else none

theorem lookupProp_cons (p : String × Option String)
    (ps : List (String × Option String)) (j : String) :
    lookupProp (p :: ps) j = if p.1 = j then some p.2 else lookupProp ps j := by
  by_cases h : p.1 = j
  · simp [lookupProp, h]
  · simp [lookupProp, h]

theorem lookupProp_setProp (ps : List (String × Option String)) (k j : String)
    (v : Option String) :
    lookupProp (setProp ps k v) j = if j = k then some v else lookupProp ps j := by
  induction ps with
  | nil =>
    by_cases hjk : j = k
    · subst hjk; simp [setProp, lookupProp]
    · simp [setProp, lookupProp, hjk, Ne.symm hjk]
  | cons p ps ih =>
    by_cases hpk : p.1 = k
    · by_cases hjk : j = k
      · subst hjk; simp [setProp, hpk, lookupProp_cons]
      · have hkj : k ≠ j := fun hh => hjk hh.symm
        simp [setProp, hpk, lookupProp_cons, hjk, hkj]
    · by_cases hpj : p.1 = j
      · have hjk : j ≠ k := fun h => hpk (hpj.trans h)
        simp [setProp, hpk, lookupProp_cons, hpj, hjk]
      · simp [setProp, hpk, lookupProp_cons, hpj, ih]

theorem lookupProp_setPropMultiple (kwargs : List (String × Option String))
    (ps : List (String × Option String)) (k : String) :
    lookupProp (setPropMultiple ps kwargs) k =
      match lastAssoc kwargs k with
      | some v => some v
      | none => lookupProp ps k := by
  induction kwargs generalizing ps with
  | nil => rfl
  | cons kv rest ih =>
    have hstep : setPropMultiple ps (kv :: rest)
        = setPropMultiple (setProp ps kv.1 kv.2) rest := rfl
    rw [hstep, ih, lookupProp_setProp]
    cases h : lastAssoc rest k with
    | some v => simp [lastAssoc, h]
    | none =>
      have hcons : lastAssoc (kv :: rest) k = if kv.1 == k then some kv.2 else none := by
        simp [lastAssoc, h]
      rw [hcons]
      by_cases hk : kv.1 = k
      · simp [hk]
      · have hk2 : ¬ k = kv.1 := fun hh => hk hh.symm
        simp [hk, hk2]

theorem dn_of_query_dn {s : RemoteState} {dn : String} {mo : Mo}
    (h : query_dn s dn = some mo) : mo.dn = dn := by
  simpa using List.find?_some h

theorem query_dn_add_mo_self (s : RemoteState) (mo : Mo) (b : Bool) :
    query_dn (add_mo s mo b) mo.dn = some mo := by
  simp [query_dn, add_mo]

theorem query_dn_add_mo_ne (s : RemoteState) (mo : Mo) (b : Bool) (dn : String)
    (h : mo.dn ≠ dn) : query_dn (add_mo s mo b) dn = query_dn s dn := by
  simp only [query_dn, add_mo]
  rw [List.find?_cons_of_neg _ (by simp [h])]
  rw [List.find?_filter]
  congr 1
  funext m
  by_cases hm : m.dn = mo.dn
  · simp [hm, h]
  · have h2 : ¬ dn = mo.dn := fun hh => h hh.symm
    by_cases hd : m.dn = dn <;> simp [hm, hd, h2]

theorem query_dn_remove_mo_self (s : RemoteState) (mo : Mo) :
    query_dn (remove_mo s mo) mo.dn = none := by
  simp only [query_dn, remove_mo]
  rw [List.find?_filter, List.find?_eq_none]
  intro x _
  simp

theorem provider_dn_ne_base (name : String) :
    ucsc_base_dn ++ "/ldap-ext/provider-" ++ name ≠ ucsc_base_dn ++ "/ldap-ext" := by
  intro h
  have hlen := congrArg String.length h
  have h1 : ("/ldap-ext/provider-" : String).length = 19 := rfl
  have h2 : ("/ldap-ext" : String).length = 9 := rfl
  simp only [String.length_append, h1, h2] at hlen
  omega

/-- The outcome of `ldap_provider_exists`, as a case split on the query. -/
theorem ldap_provider_exists_eq (s : RemoteState) (n : String)
    (kwargs : List (String × Option String)) :
    ldap_provider_exists s n kwargs =
      { result := Except.ok
          (match query_dn s (ucsc_base_dn ++ "/ldap-ext/provider-" ++ n) with
           | none => (false, none)
           | some mo => (check_prop_match mo kwargs,
               if check_prop_match mo kwargs then some mo else none)),
        state := s,
        calls := [SdkCall.queryDn (ucsc_base_dn ++ "/ldap-ext/provider-" ++ n)] } := by
  cases hq : query_dn s (ucsc_base_dn ++ "/ldap-ext/provider-" ++ n) <;>
    simp [ldap_provider_exists, ldap_provider_get, hq]

/-- The outcome of `ldap_group_map_exists`, as a case split on the query. -/
theorem ldap_group_map_exists_eq (s : RemoteState) (n : String)
    (kwargs : List (String × Option String)) :
    ldap_group_map_exists s n kwargs =
      { result := Except.ok
          (match query_dn s (ucsc_base_dn ++ "/ldap-ext/ldapgroup-" ++ n) with
           | none => (false, none)
           | some mo => (check_prop_match mo kwargs,
               if check_prop_match mo kwargs then some mo else none)),
        state := s,
        calls := [SdkCall.queryDn (ucsc_base_dn ++ "/ldap-ext/ldapgroup-" ++ n)] } := by
  cases hq : query_dn s (ucsc_base_dn ++ "/ldap-ext/ldapgroup-" ++ n) <;>
    simp [ldap_group_map_exists, ldap_group_map_get, hq]

/-- The outcome of `ldap_group_map_role_exists`, as a case split on the query. -/
theorem ldap_group_map_role_exists_eq (s : RemoteState) (g n : String)
    (kwargs : List (String × Option String)) :
    ldap_group_map_role_exists s g n kwargs =
      { result := Except.ok
          (match query_dn s ((ucsc_base_dn ++ "/ldap-ext/ldapgroup-" ++ g) ++ "/role-" ++ n) with
           | none => (false, none)
           | some mo => (check_prop_match mo kwargs,
               if check_prop_match mo kwargs then some mo else none)),
        state := s,
        calls := [SdkCall.queryDn ((ucsc_base_dn ++ "/ldap-ext/ldapgroup-" ++ g) ++ "/role-" ++ n)] } := by
  cases hq : query_dn s ((ucsc_base_dn ++ "/ldap-ext/ldapgroup-" ++ g) ++ "/role-" ++ n) <;>
    simp [ldap_group_map_role_exists, ldap_group_map_role_get, hq]

/-- The outcome of `ldap_group_map_locale_exists`, as a case split on the query. -/
theorem ldap_group_map_locale_exists_eq (s : RemoteState) (g n : String)
    (kwargs : List (String × Option String)) :
    ldap_group_map_locale_exists s g n kwargs =
      { result := Except.ok
          (match query_dn s ((ucsc_base_dn ++ "/ldap-ext/ldapgroup-" ++ g) ++ "/locale-" ++ n) with
           | none => (false, none)
           | some mo => (check_prop_match mo kwargs,
               if check_prop_match mo kwargs then some mo else none)),
        state := s,
        calls := [SdkCall.queryDn ((ucsc_base_dn ++ "/ldap-ext/ldapgroup-" ++ g) ++ "/locale-" ++ n)] } := by
  cases hq : query_dn s ((ucsc_base_dn ++ "/ldap-ext/ldapgroup-" ++ g) ++ "/locale-" ++ n) <;>
    simp [ldap_group_map_locale_exists, ldap_group_map_locale_get, hq]

/-- The outcome of `ldap_provider_group_exists`, as a case split on the query. -/
theorem ldap_provider_group_exists_eq (s : RemoteState) (n : String)
    (kwargs : List (String × Option String)) :
    ldap_provider_group_exists s n kwargs =
      { result := Except.ok
          (match query_dn s (ucsc_base_dn ++ "/ldap-ext/providergroup-" ++ n) with
           | none => (false, none)
           | some mo => (check_prop_match mo kwargs,
               if check_prop_match mo kwargs then some mo else none)),
        state := s,
        calls := [SdkCall.queryDn (ucsc_base_dn ++ "/ldap-ext/providergroup-" ++ n)] } := by
  cases hq : query_dn s (ucsc_base_dn ++ "/ldap-ext/providergroup-" ++ n) <;>
    simp [ldap_provider_group_exists, ldap_provider_group_get, hq]

/-- The outcome of `ldap_provider_group_provider_exists`, as a case split on
the query. -/
theorem ldap_provider_group_provider_exists_eq (s : RemoteState) (g n : String)
    (kwargs : List (String × Option String)) :
    ldap_provider_group_provider_exists s g n kwargs =
      { result := Except.ok
          (match query_dn s ((ucsc_base_dn ++ "/ldap-ext/providergroup-" ++ g) ++ "/provider-ref-" ++ n) with
           | none => (false, none)
           | some mo => (check_prop_match mo kwargs,
               if check_prop_match mo kwargs then some mo else none)),
        state := s,
        calls := [SdkCall.queryDn ((ucsc_base_dn ++ "/ldap-ext/providergroup-" ++ g) ++ "/provider-ref-" ++ n)] } := by
  cases hq : query_dn s ((ucsc_base_dn ++ "/ldap-ext/providergroup-" ++ g) ++ "/provider-ref-" ++ n) <;>
    simp [ldap_provider_group_provider_exists, ldap_provider_group_provider_get, hq]

/-! ### Concrete states used to exercise the operations -/

/-- The `ldap-ext` base managed object. -/
def baseMo : Mo := { dn := ucsc_base_dn ++ "/ldap-ext", props := [] }

/-- A provider named `p1` as built by `ldap_provider_create` defaults. -/
def provMo : Mo :=
  AaaLdapProvider (ucsc_base_dn ++ "/ldap-ext") "p1" (some "lowest-available")
    none (some "") (some "389") (some "no") none none none (some "30")
    (some "OpenLdap") (some "1") none

/-- A group map named `g1`. -/
def grpMo : Mo := AaaLdapGroup (ucsc_base_dn ++ "/ldap-ext") "g1" none

/-- A locale mapping `west` under group map `g1`. -/
def locMo : Mo := AaaUserLocale grpMo.dn "west" none

/-- A provider group named `pg1`. -/
def pgMo : Mo := AaaProviderGroup (ucsc_base_dn ++ "/ldap-ext") "pg1" none

/-- A provider reference to `p1` under provider group `pg1`. -/
def refMo : Mo := AaaProviderRef pgMo.dn "p1" (some "1") none

/-- A populated remote state: base object, provider `p1`, group map `g1` with
locale mapping `west`, provider group `pg1` with a reference to `p1`; the
external locale registry holds `west`. -/
def sExample : RemoteState :=
  { tree := [baseMo, provMo, grpMo, locMo, pgMo, refMo], locales := ["west"] }

/-- An empty remote state. -/
def sEmpty : RemoteState := { tree := [], locales := [] }

/-- A state in which group map `g1` and its locale mapping `west` exist but
the locale `west` has been deleted from the external locale registry. -/
def sNoLocale : RemoteState := { tree := [baseMo, grpMo, locMo], locales := [] }

/-! ### Claim theorems -/

/-- C1: on a state where the locale mapping object exists under the group map
but the named locale no longer exists in the external locale registry,
`ldap_group_map_locale_remove` does NOT fail with a `UcscOperationError`
reporting that the locale does not exist: the module imports only
`locale_exists`, so the re-validation call `locale_get(handle, name=name)`
raises `NameError` on the unbound name before any registry lookup, and no
remove or commit is issued (the mapping object survives, and the same
`NameError` is raised even when the locale does exist). -/
theorem locale_remove_raises_name_error :
    (ldap_group_map_locale_remove sNoLocale "g1" "west").result
        = Except.error (PyError.nameError "locale_get")
    ∧ (ldap_group_map_locale_remove sNoLocale "g1" "west").state = sNoLocale
    ∧ (ldap_group_map_locale_remove sNoLocale "g1" "west").calls.all SdkCall.isQuery = true
    ∧ (locale_exists sNoLocale "west").1 = false
    ∧ (ldap_group_map_locale_get sNoLocale "g1" "west").result = Except.ok (some locMo)
    ∧ (ldap_group_map_locale_remove sExample "g1" "west").result
        = Except.error (PyError.nameError "locale_get") := by
  refine ⟨rfl, rfl, rfl, rfl, rfl, rfl⟩

/-- C3: every get operation builds the object's path by concatenating the
fixed base, the per-type segment (`provider-`, `ldapgroup-`, `role-`,
`locale-`, `providergroup-`, `provider-ref-`) and the key, issues exactly one
query on the handle, and returns `ok` of whatever the remote tree holds at
that path (the object when present, empty otherwise); no get and no exists
operation ever raises for absence. -/
theorem get_builds_path_single_query_never_raises (s : RemoteState)
    (n g : String) (kwargs : List (String × Option String)) :
    ((ldap_provider_get s n).calls
        = [SdkCall.queryDn (ucsc_base_dn ++ "/ldap-ext/provider-" ++ n)]
      ∧ (ldap_provider_get s n).result
        = Except.ok (query_dn s (ucsc_base_dn ++ "/ldap-ext/provider-" ++ n)))
    ∧ ((ldap_group_map_get s n).calls
        = [SdkCall.queryDn (ucsc_base_dn ++ "/ldap-ext/ldapgroup-" ++ n)]
      ∧ (ldap_group_map_get s n).result
        = Except.ok (query_dn s (ucsc_base_dn ++ "/ldap-ext/ldapgroup-" ++ n)))
    ∧ ((ldap_group_map_role_get s g n).calls
        = [SdkCall.queryDn ((ucsc_base_dn ++ "/ldap-ext/ldapgroup-" ++ g) ++ "/role-" ++ n)]
      ∧ (ldap_group_map_role_get s g n).result
        = Except.ok (query_dn s ((ucsc_base_dn ++ "/ldap-ext/ldapgroup-" ++ g) ++ "/role-" ++ n)))
    ∧ ((ldap_group_map_locale_get s g n).calls
        = [SdkCall.queryDn ((ucsc_base_dn ++ "/ldap-ext/ldapgroup-" ++ g) ++ "/locale-" ++ n)]
      ∧ (ldap_group_map_locale_get s g n).result
        = Except.ok (query_dn s ((ucsc_base_dn ++ "/ldap-ext/ldapgroup-" ++ g) ++ "/locale-" ++ n)))
    ∧ ((ldap_provider_group_get s n).calls
        = [SdkCall.queryDn (ucsc_base_dn ++ "/ldap-ext/providergroup-" ++ n)]
      ∧ (ldap_provider_group_get s n).result
        = Except.ok (query_dn s (ucsc_base_dn ++ "/ldap-ext/providergroup-" ++ n)))
    ∧ ((ldap_provider_group_provider_get s g n).calls
        = [SdkCall.queryDn ((ucsc_base_dn ++ "/ldap-ext/providergroup-" ++ g) ++ "/provider-ref-" ++ n)]
      ∧ (ldap_provider_group_provider_get s g n).result
        = Except.ok (query_dn s ((ucsc_base_dn ++ "/ldap-ext/providergroup-" ++ g) ++ "/provider-ref-" ++ n)))
    ∧ (∃ v, (ldap_provider_exists s n kwargs).result = Except.ok v)
    ∧ (∃ v, (ldap_group_map_exists s n kwargs).result = Except.ok v)
    ∧ (∃ v, (ldap_group_map_role_exists s g n kwargs).result = Except.ok v)
    ∧ (∃ v, (ldap_group_map_locale_exists s g n kwargs).result = Except.ok v)
    ∧ (∃ v, (ldap_provider_group_exists s n kwargs).result = Except.ok v)
    ∧ (∃ v, (ldap_provider_group_provider_exists s g n kwargs).result = Except.ok v) := by
  refine ⟨⟨rfl, rfl⟩, ⟨rfl, rfl⟩, ⟨rfl, rfl⟩, ⟨rfl, rfl⟩, ⟨rfl, rfl⟩, ⟨rfl, rfl⟩,
    ?_, ?_, ?_, ?_, ?_, ?_⟩
  · rw [ldap_provider_exists_eq]; exact ⟨_, rfl⟩
  · rw [ldap_group_map_exists_eq]; exact ⟨_, rfl⟩
  · rw [ldap_group_map_role_exists_eq]; exact ⟨_, rfl⟩
  · rw [ldap_group_map_locale_exists_eq]; exact ⟨_, rfl⟩
  · rw [ldap_provider_group_exists_eq]; exact ⟨_, rfl⟩
  · rw [ldap_provider_group_provider_exists_eq]; exact ⟨_, rfl⟩

/-- C10: every get and every exists operation is read-only with respect to
the remote system: it leaves the remote state exactly as it was and issues
only path queries on the handle (no add, set, remove or commit). -/
theorem get_and_exists_read_only (s : RemoteState) (n g : String)
    (kwargs : List (String × Option String)) :
    ((ldap_provider_get s n).state = s
      ∧ (ldap_provider_get s n).calls.all SdkCall.isQuery = true)
    ∧ ((ldap_group_map_get s n).state = s
      ∧ (ldap_group_map_get s n).calls.all SdkCall.isQuery = true)
    ∧ ((ldap_group_map_role_get s g n).state = s
      ∧ (ldap_group_map_role_get s g n).calls.all SdkCall.isQuery = true)
    ∧ ((ldap_group_map_locale_get s g n).state = s
      ∧ (ldap_group_map_locale_get s g n).calls.all SdkCall.isQuery = true)
    ∧ ((ldap_provider_group_get s n).state = s
      ∧ (ldap_provider_group_get s n).calls.all SdkCall.isQuery = true)
    ∧ ((ldap_provider_group_provider_get s g n).state = s
      ∧ (ldap_provider_group_provider_get s g n).calls.all SdkCall.isQuery = true)
    ∧ ((ldap_provider_exists s n kwargs).state = s
      ∧ (ldap_provider_exists s n kwargs).calls.all SdkCall.isQuery = true)
    ∧ ((ldap_group_map_exists s n kwargs).state = s
      ∧ (ldap_group_map_exists s n kwargs).calls.all SdkCall.isQuery = true)
    ∧ ((ldap_group_map_role_exists s g n kwargs).state = s
      ∧ (ldap_group_map_role_exists s g n kwargs).calls.all SdkCall.isQuery = true)
    ∧ ((ldap_group_map_locale_exists s g n kwargs).state = s
      ∧ (ldap_group_map_locale_exists s g n kwargs).calls.all SdkCall.isQuery = true)
    ∧ ((ldap_provider_group_exists s n kwargs).state = s
      ∧ (ldap_provider_group_exists s n kwargs).calls.all SdkCall.isQuery = true)
    ∧ ((ldap_provider_group_provider_exists s g n kwargs).state = s
      ∧ (ldap_provider_group_provider_exists s g n kwargs).calls.all SdkCall.isQuery = true) := by
  refine ⟨⟨rfl, rfl⟩, ⟨rfl, rfl⟩, ⟨rfl, rfl⟩, ⟨rfl, rfl⟩, ⟨rfl, rfl⟩, ⟨rfl, rfl⟩,
    ?_, ?_, ?_, ?_, ?_, ?_⟩
  · rw [ldap_provider_exists_eq]; exact ⟨rfl, rfl⟩
  · rw [ldap_group_map_exists_eq]; exact ⟨rfl, rfl⟩
  · rw [ldap_group_map_role_exists_eq]; exact ⟨rfl, rfl⟩
  · rw [ldap_group_map_locale_exists_eq]; exact ⟨rfl, rfl⟩
  · rw [ldap_provider_group_exists_eq]; exact ⟨rfl, rfl⟩
  · rw [ldap_provider_group_provider_exists_eq]; exact ⟨rfl, rfl⟩

theorem ldap_provider_exists_true_iff (s : RemoteState) (n : String)
    (kwargs : List (String × Option String)) (mo : Mo) :
    (ldap_provider_exists s n kwargs).result = Except.ok (true, some mo)
      ↔ ((ldap_provider_get s n).result = Except.ok (some mo)
          ∧ check_prop_match mo kwargs = true) := by
  have hget : (ldap_provider_get s n).result
      = Except.ok (query_dn s (ucsc_base_dn ++ "/ldap-ext/provider-" ++ n)) := rfl
  cases hq : query_dn s (ucsc_base_dn ++ "/ldap-ext/provider-" ++ n) with
  | none =>
    have hres : (ldap_provider_exists s n kwargs).result = Except.ok (false, none) := by
      rw [ldap_provider_exists_eq, hq]
    rw [hres, hget, hq]
    constructor
    · intro h1
      exact Option.noConfusion (Prod.mk.inj (Except.ok.inj h1)).2
    · rintro ⟨h1, -⟩
      exact Option.noConfusion (Except.ok.inj h1)
  | some m =>
    by_cases hm : check_prop_match m kwargs = true
    · have hres : (ldap_provider_exists s n kwargs).result = Except.ok (true, some m) := by
        rw [ldap_provider_exists_eq]; simp [hq, hm]
      rw [hres, hget, hq]
      constructor
      · intro h1
        have h2 := (Prod.mk.inj (Except.ok.inj h1)).2
        exact ⟨congrArg Except.ok h2, (Option.some.inj h2) ▸ hm⟩
      · rintro ⟨h1, -⟩
        have h2 : m = mo := Option.some.inj (Except.ok.inj h1)
        rw [h2]
    · have hres : (ldap_provider_exists s n kwargs).result = Except.ok (false, none) := by
        rw [ldap_provider_exists_eq]; simp [hq, hm]
      rw [hres, hget, hq]
      constructor
      · intro h1
        exact Option.noConfusion (Prod.mk.inj (Except.ok.inj h1)).2
      · rintro ⟨h1, hmatch⟩
        have h2 : m = mo := Option.some.inj (Except.ok.inj h1)
        exact absurd (h2 ▸ hmatch) hm

theorem ldap_provider_exists_false_of_no_match (s : RemoteState) (n : String)
    (kwargs : List (String × Option String))
    (h : ¬ ∃ mo : Mo, (ldap_provider_get s n).result = Except.ok (some mo)
          ∧ check_prop_match mo kwargs = true) :
    (ldap_provider_exists s n kwargs).result = Except.ok (false, none) := by
  rw [ldap_provider_exists_eq]
  cases hq : query_dn s (ucsc_base_dn ++ "/ldap-ext/provider-" ++ n) with
  | none => rfl
  | some m =>
    have hm : ¬ check_prop_match m kwargs = true :=
      fun hm => h ⟨m, by simp [ldap_provider_get, hq], hm⟩
    simp [hm]

theorem ldap_group_map_locale_exists_true_iff (s : RemoteState) (g n : String)
    (kwargs : List (String × Option String)) (mo : Mo) :
    (ldap_group_map_locale_exists s g n kwargs).result = Except.ok (true, some mo)
      ↔ ((ldap_group_map_locale_get s g n).result = Except.ok (some mo)
          ∧ check_prop_match mo kwargs = true) := by
  have hget : (ldap_group_map_locale_get s g n).result
      = Except.ok (query_dn s ((ucsc_base_dn ++ "/ldap-ext/ldapgroup-" ++ g) ++ "/locale-" ++ n)) := rfl
  cases hq : query_dn s ((ucsc_base_dn ++ "/ldap-ext/ldapgroup-" ++ g) ++ "/locale-" ++ n) with
  | none =>
    have hres : (ldap_group_map_locale_exists s g n kwargs).result = Except.ok (false, none) := by
      rw [ldap_group_map_locale_exists_eq, hq]
    rw [hres, hget, hq]
    constructor
    · intro h1
      exact Option.noConfusion (Prod.mk.inj (Except.ok.inj h1)).2
    · rintro ⟨h1, -⟩
      exact Option.noConfusion (Except.ok.inj h1)
  | some m =>
    by_cases hm : check_prop_match m kwargs = true
    · have hres : (ldap_group_map_locale_exists s g n kwargs).result
          = Except.ok (true, some m) := by
        rw [ldap_group_map_locale_exists_eq]; simp [hq, hm]
      rw [hres, hget, hq]
      constructor
      · intro h1
        have h2 := (Prod.mk.inj (Except.ok.inj h1)).2
        exact ⟨congrArg Except.ok h2, (Option.some.inj h2) ▸ hm⟩
      · rintro ⟨h1, -⟩
        have h2 : m = mo := Option.some.inj (Except.ok.inj h1)
        rw [h2]
    · have hres : (ldap_group_map_locale_exists s g n kwargs).result
          = Except.ok (false, none) := by
        rw [ldap_group_map_locale_exists_eq]; simp [hq, hm]
      rw [hres, hget, hq]
      constructor
      · intro h1
        exact Option.noConfusion (Prod.mk.inj (Except.ok.inj h1)).2
      · rintro ⟨h1, hmatch⟩
        have h2 : m = mo := Option.some.inj (Except.ok.inj h1)
        exact absurd (h2 ▸ hmatch) hm

theorem ldap_group_map_locale_exists_false_of_no_match (s : RemoteState) (g n : String)
    (kwargs : List (String × Option String))
    (h : ¬ ∃ mo : Mo, (ldap_group_map_locale_get s g n).result = Except.ok (some mo)
          ∧ check_prop_match mo kwargs = true) :
    (ldap_group_map_locale_exists s g n kwargs).result = Except.ok (false, none) := by
  rw [ldap_group_map_locale_exists_eq]
  cases hq : query_dn s ((ucsc_base_dn ++ "/ldap-ext/ldapgroup-" ++ g) ++ "/locale-" ++ n) with
  | none => rfl
  | some m =>
    have hm : ¬ check_prop_match m kwargs = true :=
      fun hm => h ⟨m, by simp [ldap_group_map_locale_get, hq], hm⟩
    simp [hm]

/-- C2: an exists operation returns `(true, object)` exactly when the
corresponding get returns a non-empty object and every supplied expected
attribute matches the object's actual attribute; in every other case,
including total absence of the object, it returns `(false, none)` — shown
for `ldap_provider_exists` and `ldap_group_map_locale_exists`. -/
theorem exists_iff_get_and_match (s : RemoteState) (n g ln : String)
    (kwargs : List (String × Option String)) :
    (∀ mo : Mo, (ldap_provider_exists s n kwargs).result = Except.ok (true, some mo)
        ↔ ((ldap_provider_get s n).result = Except.ok (some mo)
            ∧ check_prop_match mo kwargs = true))
    ∧ ((¬ ∃ mo : Mo, (ldap_provider_get s n).result = Except.ok (some mo)
            ∧ check_prop_match mo kwargs = true)
        → (ldap_provider_exists s n kwargs).result = Except.ok (false, none))
    ∧ (∀ mo : Mo, (ldap_group_map_locale_exists s g ln kwargs).result
            = Except.ok (true, some mo)
        ↔ ((ldap_group_map_locale_get s g ln).result = Except.ok (some mo)
            ∧ check_prop_match mo kwargs = true))
    ∧ ((¬ ∃ mo : Mo, (ldap_group_map_locale_get s g ln).result = Except.ok (some mo)
            ∧ check_prop_match mo kwargs = true)
        → (ldap_group_map_locale_exists s g ln kwargs).result = Except.ok (false, none)) :=
  ⟨fun mo => ldap_provider_exists_true_iff s n kwargs mo,
   fun h => ldap_provider_exists_false_of_no_match s n kwargs h,
   fun mo => ldap_group_map_locale_exists_true_iff s g ln kwargs mo,
   fun h => ldap_group_map_locale_exists_false_of_no_match s g ln kwargs h⟩

/-- Witness for C2 on the populated example state: a matching expected
attribute yields `(true, object)`, a missing object or a non-matching
attribute yields `(false, none)`. -/
theorem exists_iff_get_and_match_witness :
    (ldap_provider_exists sExample "p1" [("port", some "389")]).result
        = Except.ok (true, some provMo)
    ∧ (ldap_provider_exists sExample "nope" []).result = Except.ok (false, none)
    ∧ (ldap_provider_exists sExample "p1" [("port", some "636")]).result
        = Except.ok (false, none)
    ∧ (ldap_group_map_locale_exists sExample "g1" "west" []).result
        = Except.ok (true, some locMo) := by
  refine ⟨?_, ?_, ?_, ?_⟩
  · exact ((exists_iff_get_and_match sExample "p1" "g1" "west"
      [("port", some "389")]).1 provMo).mpr ⟨rfl, rfl⟩
  · refine (exists_iff_get_and_match sExample "nope" "g1" "west" []).2.1 ?_
    rintro ⟨mo, hmo, -⟩
    have hres : (ldap_provider_get sExample "nope").result = Except.ok none := rfl
    rw [hres] at hmo
    exact Option.noConfusion (Except.ok.inj hmo)
  · refine (exists_iff_get_and_match sExample "p1" "g1" "west"
      [("port", some "636")]).2.1 ?_
    rintro ⟨mo, hmo, hmatch⟩
    have hres : (ldap_provider_get sExample "p1").result = Except.ok (some provMo) := rfl
    rw [hres] at hmo
    have h2 : provMo = mo := Option.some.inj (Except.ok.inj hmo)
    rw [← h2] at hmatch
    exact absurd hmatch (by decide)
  · exact ((exists_iff_get_and_match sExample "p1" "g1" "west" []).2.2.1 locMo).mpr
      ⟨rfl, rfl⟩

/-- C4: a modify operation on a key whose object is absent fails with an
OperationError and performs no remote mutation — the state is unchanged and
the handle sees only the path query, no set and no commit; on a present
object it applies the attribute updates, submits a set, commits, and returns
the updated object — shown for `ldap_provider_modify` and
`ldap_provider_group_provider_modify`. -/
theorem modify_absent_fails_no_mutation (s : RemoteState) (n gn pn : String)
    (kwargs : List (String × Option String)) :
    (((ldap_provider_get s n).result = Except.ok none →
        (ldap_provider_modify s n kwargs).result
          = Except.error (PyError.ucscOperationError "ldap_provider_modify"
              "Ldap Provider does not exist")
        ∧ (ldap_provider_modify s n kwargs).state = s
        ∧ (ldap_provider_modify s n kwargs).calls.all SdkCall.isQuery = true)
      ∧ (∀ mo : Mo, (ldap_provider_get s n).result = Except.ok (some mo) →
          (ldap_provider_modify s n kwargs).result
            = Except.ok { mo with props := setPropMultiple mo.props kwargs }
          ∧ (ldap_provider_modify s n kwargs).state
            = set_mo s { mo with props := setPropMultiple mo.props kwargs }
          ∧ (ldap_provider_modify s n kwargs).calls
            = [SdkCall.queryDn (ucsc_base_dn ++ "/ldap-ext/provider-" ++ n),
               SdkCall.setMo { mo with props := setPropMultiple mo.props kwargs },
               SdkCall.commit]))
    ∧ (((ldap_provider_group_provider_get s gn pn).result = Except.ok none →
        (ldap_provider_group_provider_modify s gn pn kwargs).result
          = Except.error (PyError.ucscOperationError "ldap_provider_group_provider_modify"
              "Provider not available under group.")
        ∧ (ldap_provider_group_provider_modify s gn pn kwargs).state = s
        ∧ (ldap_provider_group_provider_modify s gn pn kwargs).calls.all SdkCall.isQuery = true)
      ∧ (∀ mo : Mo, (ldap_provider_group_provider_get s gn pn).result = Except.ok (some mo) →
          (ldap_provider_group_provider_modify s gn pn kwargs).result
            = Except.ok { mo with props := setPropMultiple mo.props kwargs }
          ∧ (ldap_provider_group_provider_modify s gn pn kwargs).state
            = set_mo s { mo with props := setPropMultiple mo.props kwargs }
          ∧ (ldap_provider_group_provider_modify s gn pn kwargs).calls
            = [SdkCall.queryDn ((ucsc_base_dn ++ "/ldap-ext/providergroup-" ++ gn)
                 ++ "/provider-ref-" ++ pn),
               SdkCall.setMo { mo with props := setPropMultiple mo.props kwargs },
               SdkCall.commit])) := by
  constructor
  · constructor
    · intro h
      have hq : query_dn s (ucsc_base_dn ++ "/ldap-ext/provider-" ++ n) = none :=
        Except.ok.inj h
      refine ⟨?_, ?_, ?_⟩ <;>
        simp [ldap_provider_modify, ldap_provider_get, hq, SdkCall.isQuery]
    · intro mo h
      have hq : query_dn s (ucsc_base_dn ++ "/ldap-ext/provider-" ++ n) = some mo :=
        Except.ok.inj h
      refine ⟨?_, ?_, ?_⟩ <;>
        simp [ldap_provider_modify, ldap_provider_get, hq]
  · constructor
    · intro h
      have hq : query_dn s ((ucsc_base_dn ++ "/ldap-ext/providergroup-" ++ gn)
          ++ "/provider-ref-" ++ pn) = none := Except.ok.inj h
      refine ⟨?_, ?_, ?_⟩ <;>
        simp [ldap_provider_group_provider_modify, ldap_provider_group_provider_get,
          hq, SdkCall.isQuery]
    · intro mo h
      have hq : query_dn s ((ucsc_base_dn ++ "/ldap-ext/providergroup-" ++ gn)
          ++ "/provider-ref-" ++ pn) = some mo := Except.ok.inj h
      refine ⟨?_, ?_, ?_⟩ <;>
        simp [ldap_provider_group_provider_modify, ldap_provider_group_provider_get, hq]

/-- Witness for C4: on the populated example state, modifying a missing
provider fails and leaves the state unchanged, while modifying the present
provider `p1` returns it with the updated port. -/
theorem modify_absent_fails_no_mutation_witness :
    ((ldap_provider_modify sExample "nope" [("port", some "636")]).result
        = Except.error (PyError.ucscOperationError "ldap_provider_modify"
            "Ldap Provider does not exist")
      ∧ (ldap_provider_modify sExample "nope" [("port", some "636")]).state = sExample
      ∧ (ldap_provider_modify sExample "nope" [("port", some "636")]).calls.all
          SdkCall.isQuery = true)
    ∧ (ldap_provider_modify sExample "p1" [("port", some "636")]).result
        = Except.ok { provMo with props := setPropMultiple provMo.props [("port", some "636")] } := by
  constructor
  · exact (modify_absent_fails_no_mutation sExample "nope" "pg1" "p1"
      [("port", some "636")]).1.1 rfl
  · exact ((modify_absent_fails_no_mutation sExample "p1" "pg1" "p1"
      [("port", some "636")]).1.2 provMo rfl).1

/-- C5: after a successful delete, get on the same key returns empty, and a
second delete of the same key fails with an OperationError while issuing only
the path query — no remove and no commit — and leaving the state unchanged;
shown for `ldap_provider_delete` and `ldap_group_map_delete`. -/
theorem delete_then_get_empty_second_delete_fails (s : RemoteState) (n m : String) :
    ((ldap_provider_delete s n).result = Except.ok () →
        (ldap_provider_get (ldap_provider_delete s n).state n).result = Except.ok none
        ∧ (ldap_provider_delete (ldap_provider_delete s n).state n).result
            = Except.error (PyError.ucscOperationError "ldap_provider_delete"
                "Ldap Provider does not exist")
        ∧ (ldap_provider_delete (ldap_provider_delete s n).state n).state
            = (ldap_provider_delete s n).state
        ∧ (ldap_provider_delete (ldap_provider_delete s n).state n).calls.all
            SdkCall.isQuery = true)
    ∧ ((ldap_group_map_delete s m).result = Except.ok () →
        (ldap_group_map_get (ldap_group_map_delete s m).state m).result = Except.ok none
        ∧ (ldap_group_map_delete (ldap_group_map_delete s m).state m).result
            = Except.error (PyError.ucscOperationError "ldap_group_map_delete"
                "Ldap Group does not exist")
        ∧ (ldap_group_map_delete (ldap_group_map_delete s m).state m).state
            = (ldap_group_map_delete s m).state
        ∧ (ldap_group_map_delete (ldap_group_map_delete s m).state m).calls.all
            SdkCall.isQuery = true) := by
  constructor
  · intro hok
    cases hq : query_dn s (ucsc_base_dn ++ "/ldap-ext/provider-" ++ n) with
    | none =>
      exfalso
      have : (ldap_provider_delete s n).result
          = Except.error (PyError.ucscOperationError "ldap_provider_delete"
              "Ldap Provider does not exist") := by
        simp [ldap_provider_delete, ldap_provider_get, hq]
      rw [this] at hok
      exact Except.noConfusion hok
    | some mo =>
      have hdn : mo.dn = ucsc_base_dn ++ "/ldap-ext/provider-" ++ n := dn_of_query_dn hq
      have hstate : (ldap_provider_delete s n).state = remove_mo s mo := by
        simp [ldap_provider_delete, ldap_provider_get, hq]
      have hget : query_dn (remove_mo s mo) (ucsc_base_dn ++ "/ldap-ext/provider-" ++ n)
          = none := by
        rw [← hdn]; exact query_dn_remove_mo_self s mo
      refine ⟨?_, ?_, ?_, ?_⟩
      · rw [hstate]; simp [ldap_provider_get, hget]
      · rw [hstate]; simp [ldap_provider_delete, ldap_provider_get, hget]
      · rw [hstate]; simp [ldap_provider_delete, ldap_provider_get, hget]
      · rw [hstate]; simp [ldap_provider_delete, ldap_provider_get, hget, SdkCall.isQuery]
  · intro hok
    cases hq : query_dn s (ucsc_base_dn ++ "/ldap-ext/ldapgroup-" ++ m) with
    | none =>
      exfalso
      have : (ldap_group_map_delete s m).result
          = Except.error (PyError.ucscOperationError "ldap_group_map_delete"
              "Ldap Group does not exist") := by
        simp [ldap_group_map_delete, ldap_group_map_get, hq]
      rw [this] at hok
      exact Except.noConfusion hok
    | some mo =>
      have hdn : mo.dn = ucsc_base_dn ++ "/ldap-ext/ldapgroup-" ++ m := dn_of_query_dn hq
      have hstate : (ldap_group_map_delete s m).state = remove_mo s mo := by
        simp [ldap_group_map_delete, ldap_group_map_get, hq]
      have hget : query_dn (remove_mo s mo) (ucsc_base_dn ++ "/ldap-ext/ldapgroup-" ++ m)
          = none := by
        rw [← hdn]; exact query_dn_remove_mo_self s mo
      refine ⟨?_, ?_, ?_, ?_⟩
      · rw [hstate]; simp [ldap_group_map_get, hget]
      · rw [hstate]; simp [ldap_group_map_delete, ldap_group_map_get, hget]
      · rw [hstate]; simp [ldap_group_map_delete, ldap_group_map_get, hget]
      · rw [hstate]; simp [ldap_group_map_delete, ldap_group_map_get, hget, SdkCall.isQuery]

/-- Witness for C5 on the populated example state: deleting provider `p1`
succeeds, and the consequences of the theorem hold for it. -/
theorem delete_then_get_empty_second_delete_fails_witness :
    (ldap_provider_delete sExample "p1").result = Except.ok ()
    ∧ ((ldap_provider_get (ldap_provider_delete sExample "p1").state "p1").result
        = Except.ok none
      ∧ (ldap_provider_delete (ldap_provider_delete sExample "p1").state "p1").result
        = Except.error (PyError.ucscOperationError "ldap_provider_delete"
            "Ldap Provider does not exist")) := by
  have h := (delete_then_get_empty_second_delete_fails sExample "p1" "g1").1 rfl
  exact ⟨rfl, h.1, h.2.1⟩

/-- C6: `ldap_provider_group_provider_add` validates that the provider group
and then the referenced provider exist before creating the reference: if the
group is absent, or the group is present but the provider is absent, it fails
with an OperationError, leaves the state unchanged and issues only the path
queries (no add, no commit, hence no reference object is created); membership
modify and remove only ever query the reference object's own path — never the
referenced provider's path — and mutate only the object fetched there. -/
theorem provider_group_provider_add_validates_refs (s : RemoteState) (gn pn : String)
    (order descr : Option String) (kwargs : List (String × Option String)) :
    ((query_dn s (ucsc_base_dn ++ "/ldap-ext/providergroup-" ++ gn) = none →
        (ldap_provider_group_provider_add s gn pn order descr kwargs).result
          = Except.error (PyError.ucscOperationError "ldap_provider_group_provider_add"
              "Ldap Provider Group does not exist.")
        ∧ (ldap_provider_group_provider_add s gn pn order descr kwargs).state = s
        ∧ (ldap_provider_group_provider_add s gn pn order descr kwargs).calls
          = [SdkCall.queryDn (ucsc_base_dn ++ "/ldap-ext/providergroup-" ++ gn)])
    ∧ (query_dn s (ucsc_base_dn ++ "/ldap-ext/providergroup-" ++ gn) ≠ none →
        query_dn s (ucsc_base_dn ++ "/ldap-ext/provider-" ++ pn) = none →
        (ldap_provider_group_provider_add s gn pn order descr kwargs).result
          = Except.error (PyError.ucscOperationError "ldap_provider_group_provider_add"
              "Ldap Provider does not exist.")
        ∧ (ldap_provider_group_provider_add s gn pn order descr kwargs).state = s
        ∧ (ldap_provider_group_provider_add s gn pn order descr kwargs).calls
          = [SdkCall.queryDn (ucsc_base_dn ++ "/ldap-ext/providergroup-" ++ gn),
             SdkCall.queryDn (ucsc_base_dn ++ "/ldap-ext/provider-" ++ pn)]))
    ∧ (∀ dn', SdkCall.queryDn dn'
          ∈ (ldap_provider_group_provider_modify s gn pn kwargs).calls →
        dn' = (ucsc_base_dn ++ "/ldap-ext/providergroup-" ++ gn) ++ "/provider-ref-" ++ pn)
    ∧ (∀ dn', SdkCall.queryDn dn'
          ∈ (ldap_provider_group_provider_remove s gn pn).calls →
        dn' = (ucsc_base_dn ++ "/ldap-ext/providergroup-" ++ gn) ++ "/provider-ref-" ++ pn) := by
  refine ⟨⟨?_, ?_⟩, ?_, ?_⟩
  · intro hg
    refine ⟨?_, ?_, ?_⟩ <;> simp [ldap_provider_group_provider_add, hg]
  · intro hg hp
    cases hgq : query_dn s (ucsc_base_dn ++ "/ldap-ext/providergroup-" ++ gn) with
    | none => exact absurd hgq hg
    | some gmo =>
      refine ⟨?_, ?_, ?_⟩ <;> simp [ldap_provider_group_provider_add, hgq, hp]
  · intro dn' hmem
    cases hq : query_dn s ((ucsc_base_dn ++ "/ldap-ext/providergroup-" ++ gn)
        ++ "/provider-ref-" ++ pn) with
    | none =>
      simp [ldap_provider_group_provider_modify, ldap_provider_group_provider_get, hq]
        at hmem
      exact hmem
    | some mo =>
      simp [ldap_provider_group_provider_modify, ldap_provider_group_provider_get, hq]
        at hmem
      exact hmem
  · intro dn' hmem
    cases hq : query_dn s ((ucsc_base_dn ++ "/ldap-ext/providergroup-" ++ gn)
        ++ "/provider-ref-" ++ pn) with
    | none =>
      simp [ldap_provider_group_provider_remove, ldap_provider_group_provider_get, hq]
        at hmem
      exact hmem
    | some mo =>
      simp [ldap_provider_group_provider_remove, ldap_provider_group_provider_get, hq]
        at hmem
      exact hmem

/-- Witness for C6: adding a reference to a missing provider under the
existing group `pg1` fails and creates nothing; adding under a missing group
fails at the group check. -/
theorem provider_group_provider_add_validates_refs_witness :
    ((ldap_provider_group_provider_add sExample "pg1" "ghost"
        (some "lowest-available") none []).result
      = Except.error (PyError.ucscOperationError "ldap_provider_group_provider_add"
          "Ldap Provider does not exist.")
      ∧ (ldap_provider_group_provider_add sExample "pg1" "ghost"
          (some "lowest-available") none []).state = sExample)
    ∧ (ldap_provider_group_provider_add sExample "nogroup" "p1"
        (some "lowest-available") none []).result
      = Except.error (PyError.ucscOperationError "ldap_provider_group_provider_add"
          "Ldap Provider Group does not exist.") := by
  constructor
  · have h := (provider_group_provider_add_validates_refs sExample "pg1" "ghost"
      (some "lowest-available") none []).1.2 (by intro h; exact Option.noConfusion h) rfl
    exact ⟨h.1, h.2.1⟩
  · exact ((provider_group_provider_add_validates_refs sExample "nogroup" "p1"
      (some "lowest-available") none []).1.1 rfl).1

/-- C7: a create/configure operation builds the child object from the named
parameters, then applies the open-ended kwargs overrides on top — for every
property, the value finally held is the last kwargs binding when one exists
and the named-parameter value otherwise — then submits the object with
add-with-replace semantics, commits, and returns the constructed object;
shown for `ldap_provider_create` and `ldap_provider_group_rules_configure`. -/
theorem create_named_base_then_kwargs_override (s : RemoteState) (n pn : String)
    (order rootdn basedn port enable_ssl filter attr key timeout vendor
     retries descr : Option String)
    (authorization traversal target_attr rname rdescr : Option String)
    (kwargs : List (String × Option String)) :
    (query_dn s (ucsc_base_dn ++ "/ldap-ext") ≠ none →
      ∃ mo : Mo,
        (ldap_provider_create s n order rootdn basedn port enable_ssl filter
            attr key timeout vendor retries descr kwargs).result = Except.ok mo
        ∧ mo.props = setPropMultiple
            (AaaLdapProvider (ucsc_base_dn ++ "/ldap-ext") n order rootdn basedn
              port enable_ssl filter attr key timeout vendor retries descr).props
            kwargs
        ∧ (∀ k, lookupProp mo.props k =
            match lastAssoc kwargs k with
            | some v => some v
            | none => lookupProp
                (AaaLdapProvider (ucsc_base_dn ++ "/ldap-ext") n order rootdn
                  basedn port enable_ssl filter attr key timeout vendor retries
                  descr).props k)
        ∧ (ldap_provider_create s n order rootdn basedn port enable_ssl filter
            attr key timeout vendor retries descr kwargs).state = add_mo s mo true
        ∧ (ldap_provider_create s n order rootdn basedn port enable_ssl filter
            attr key timeout vendor retries descr kwargs).calls
          = [SdkCall.queryDn (ucsc_base_dn ++ "/ldap-ext"),
             SdkCall.addMo mo true, SdkCall.commit])
    ∧ (∀ p : Mo, query_dn s (ucsc_base_dn ++ "/ldap-ext/provider-" ++ pn) = some p →
      ∃ mo : Mo,
        (ldap_provider_group_rules_configure s pn authorization traversal
            target_attr rname rdescr kwargs).result = Except.ok mo
        ∧ mo.props = setPropMultiple
            (setPropMultiple (AaaLdapGroupRule p.dn).props
              [("authorization", authorization), ("traversal", traversal),
               ("target_attr", target_attr), ("name", rname), ("descr", rdescr)])
            kwargs
        ∧ (∀ k, lookupProp mo.props k =
            match lastAssoc kwargs k with
            | some v => some v
            | none => lookupProp
                (setPropMultiple (AaaLdapGroupRule p.dn).props
                  [("authorization", authorization), ("traversal", traversal),
                   ("target_attr", target_attr), ("name", rname), ("descr", rdescr)]) k)
        ∧ (ldap_provider_group_rules_configure s pn authorization traversal
            target_attr rname rdescr kwargs).state = add_mo s mo true
        ∧ (ldap_provider_group_rules_configure s pn authorization traversal
            target_attr rname rdescr kwargs).calls
          = [SdkCall.queryDn (ucsc_base_dn ++ "/ldap-ext/provider-" ++ pn),
             SdkCall.addMo mo true, SdkCall.commit]) := by
  constructor
  · intro hbase
    cases hq : query_dn s (ucsc_base_dn ++ "/ldap-ext") with
    | none => exact absurd hq hbase
    | some b =>
      refine ⟨{ AaaLdapProvider (ucsc_base_dn ++ "/ldap-ext") n order rootdn basedn
          port enable_ssl filter attr key timeout vendor retries descr with
          props := setPropMultiple
            (AaaLdapProvider (ucsc_base_dn ++ "/ldap-ext") n order rootdn basedn
              port enable_ssl filter attr key timeout vendor retries descr).props
            kwargs }, ?_, rfl, ?_, ?_, ?_⟩
      · simp [ldap_provider_create, hq]
      · intro k
        exact lookupProp_setPropMultiple kwargs _ k
      · simp [ldap_provider_create, hq]
      · simp [ldap_provider_create, hq]
  · intro p hp
    refine ⟨{ AaaLdapGroupRule p.dn with
        props := setPropMultiple
          (setPropMultiple (AaaLdapGroupRule p.dn).props
            [("authorization", authorization), ("traversal", traversal),
             ("target_attr", target_attr), ("name", rname), ("descr", rdescr)])
          kwargs }, ?_, rfl, ?_, ?_, ?_⟩
    · simp [ldap_provider_group_rules_configure, hp]
    · intro k
      exact lookupProp_setPropMultiple kwargs _ k
    · simp [ldap_provider_group_rules_configure, hp]
    · simp [ldap_provider_group_rules_configure, hp]

/-- Witness for C7: creating provider `p2` with a kwargs override of `port`
yields an object whose `port` is the override and whose `vendor` is the named
default; configuring group rules on `p1` applies the kwargs on top. -/
theorem create_named_base_then_kwargs_override_witness :
    (∃ mo : Mo,
      (ldap_provider_create sExample "p2" (some "lowest-available") none (some "")
          (some "389") (some "no") none none none (some "30") (some "OpenLdap")
          (some "1") none [("port", some "636")]).result = Except.ok mo
      ∧ lookupProp mo.props "port" = some (some "636")
      ∧ lookupProp mo.props "vendor" = some (some "OpenLdap"))
    ∧ (∃ mo : Mo,
      (ldap_provider_group_rules_configure sExample "p1" (some "enable") none
          none none none [("traversal", some "subtree")]).result = Except.ok mo
      ∧ lookupProp mo.props "traversal" = some (some "subtree")
      ∧ lookupProp mo.props "authorization" = some (some "enable")) := by
  constructor
  · obtain ⟨mo, hres, -, hprops, -, -⟩ :=
      (create_named_base_then_kwargs_override sExample "p2" "p1"
        (some "lowest-available") none (some "") (some "389") (some "no") none
        none none (some "30") (some "OpenLdap") (some "1") none
        (some "enable") none none none none [("port", some "636")]).1
        (by intro h; exact Option.noConfusion h)
    refine ⟨mo, hres, ?_, ?_⟩
    · rw [hprops "port"]; rfl
    · rw [hprops "vendor"]; rfl
  · obtain ⟨mo, hres, -, hprops, -, -⟩ :=
      (create_named_base_then_kwargs_override sExample "p2" "p1"
        (some "lowest-available") none (some "") (some "389") (some "no") none
        none none (some "30") (some "OpenLdap") (some "1") none
        (some "enable") none none none none [("traversal", some "subtree")]).2
        provMo rfl
    refine ⟨mo, hres, ?_, ?_⟩
    · rw [hprops "traversal"]; rfl
    · rw [hprops "authorization"]; rfl

/-- The provider child path built by the SDK constructor (parent path plus
segment) is the same string as the path built by `ldap_provider_get`. -/
theorem provider_child_dn_eq (n : String) :
    (ucsc_base_dn ++ "/ldap-ext") ++ "/provider-" ++ n
      = ucsc_base_dn ++ "/ldap-ext/provider-" ++ n := by
  have h : ("/ldap-ext" : String) ++ "/provider-" = "/ldap-ext/provider-" := by decide
  rw [String.append_assoc ucsc_base_dn "/ldap-ext" "/provider-", h]

/-- C8: create followed by get with the same key returns an object holding
exactly the supplied attributes (named parameters with the kwargs applied on
top), and create is idempotent under add-with-replace: a second create with
the same key and a different attribute set succeeds and leaves the object
holding the second attribute set. -/
theorem create_get_roundtrip_add_replace (s : RemoteState) (n : String)
    (order1 rootdn1 basedn1 port1 ssl1 flt1 att1 key1 tmo1 vnd1 rtr1 dsc1 : Option String)
    (kwargs1 : List (String × Option String))
    (order2 rootdn2 basedn2 port2 ssl2 flt2 att2 key2 tmo2 vnd2 rtr2 dsc2 : Option String)
    (kwargs2 : List (String × Option String)) :
    query_dn s (ucsc_base_dn ++ "/ldap-ext") ≠ none →
    ∃ mo1 mo2 : Mo,
      (ldap_provider_create s n order1 rootdn1 basedn1 port1 ssl1 flt1 att1
          key1 tmo1 vnd1 rtr1 dsc1 kwargs1).result = Except.ok mo1
      ∧ (ldap_provider_get (ldap_provider_create s n order1 rootdn1 basedn1
          port1 ssl1 flt1 att1 key1 tmo1 vnd1 rtr1 dsc1 kwargs1).state n).result
        = Except.ok (some mo1)
      ∧ mo1.props = setPropMultiple
          (AaaLdapProvider (ucsc_base_dn ++ "/ldap-ext") n order1 rootdn1
            basedn1 port1 ssl1 flt1 att1 key1 tmo1 vnd1 rtr1 dsc1).props kwargs1
      ∧ (ldap_provider_create (ldap_provider_create s n order1 rootdn1 basedn1
          port1 ssl1 flt1 att1 key1 tmo1 vnd1 rtr1 dsc1 kwargs1).state n order2
          rootdn2 basedn2 port2 ssl2 flt2 att2 key2 tmo2 vnd2 rtr2 dsc2
          kwargs2).result = Except.ok mo2
      ∧ (ldap_provider_get (ldap_provider_create (ldap_provider_create s n
          order1 rootdn1 basedn1 port1 ssl1 flt1 att1 key1 tmo1 vnd1 rtr1 dsc1
          kwargs1).state n order2 rootdn2 basedn2 port2 ssl2 flt2 att2 key2
          tmo2 vnd2 rtr2 dsc2 kwargs2).state n).result = Except.ok (some mo2)
      ∧ mo2.props = setPropMultiple
          (AaaLdapProvider (ucsc_base_dn ++ "/ldap-ext") n order2 rootdn2
            basedn2 port2 ssl2 flt2 att2 key2 tmo2 vnd2 rtr2 dsc2).props kwargs2 := by
  intro hbase
  cases hq : query_dn s (ucsc_base_dn ++ "/ldap-ext") with
  | none => exact absurd hq hbase
  | some b =>
    set mo1 : Mo := { AaaLdapProvider (ucsc_base_dn ++ "/ldap-ext") n order1
        rootdn1 basedn1 port1 ssl1 flt1 att1 key1 tmo1 vnd1 rtr1 dsc1 with
        props := setPropMultiple
          (AaaLdapProvider (ucsc_base_dn ++ "/ldap-ext") n order1 rootdn1
            basedn1 port1 ssl1 flt1 att1 key1 tmo1 vnd1 rtr1 dsc1).props
          kwargs1 } with hmo1
    set mo2 : Mo := { AaaLdapProvider (ucsc_base_dn ++ "/ldap-ext") n order2
        rootdn2 basedn2 port2 ssl2 flt2 att2 key2 tmo2 vnd2 rtr2 dsc2 with
        props := setPropMultiple
          (AaaLdapProvider (ucsc_base_dn ++ "/ldap-ext") n order2 rootdn2
            basedn2 port2 ssl2 flt2 att2 key2 tmo2 vnd2 rtr2 dsc2).props
          kwargs2 } with hmo2
    have hdn1 : mo1.dn = ucsc_base_dn ++ "/ldap-ext/provider-" ++ n :=
      provider_child_dn_eq n
    have hdn2 : mo2.dn = ucsc_base_dn ++ "/ldap-ext/provider-" ++ n :=
      provider_child_dn_eq n
    have hstate1 : (ldap_provider_create s n order1 rootdn1 basedn1 port1 ssl1
        flt1 att1 key1 tmo1 vnd1 rtr1 dsc1 kwargs1).state = add_mo s mo1 true := by
      simp [ldap_provider_create, hq, hmo1]
    have hres1 : (ldap_provider_create s n order1 rootdn1 basedn1 port1 ssl1
        flt1 att1 key1 tmo1 vnd1 rtr1 dsc1 kwargs1).result = Except.ok mo1 := by
      simp [ldap_provider_create, hq, hmo1]
    have hbase1 : query_dn (add_mo s mo1 true) (ucsc_base_dn ++ "/ldap-ext")
        = some b := by
      rw [query_dn_add_mo_ne s mo1 true _ (hdn1 ▸ provider_dn_ne_base n)]
      exact hq
    have hstate2 : (ldap_provider_create (add_mo s mo1 true) n order2 rootdn2
        basedn2 port2 ssl2 flt2 att2 key2 tmo2 vnd2 rtr2 dsc2 kwargs2).state
        = add_mo (add_mo s mo1 true) mo2 true := by
      simp [ldap_provider_create, hbase1, hmo2]
    have hres2 : (ldap_provider_create (add_mo s mo1 true) n order2 rootdn2
        basedn2 port2 ssl2 flt2 att2 key2 tmo2 vnd2 rtr2 dsc2 kwargs2).result
        = Except.ok mo2 := by
      simp [ldap_provider_create, hbase1, hmo2]
    refine ⟨mo1, mo2, hres1, ?_, by rw [hmo1], ?_, ?_, by rw [hmo2]⟩
    · rw [hstate1]
      have : query_dn (add_mo s mo1 true) (ucsc_base_dn ++ "/ldap-ext/provider-" ++ n)
          = some mo1 := by
        rw [← hdn1]; exact query_dn_add_mo_self s mo1 true
      simp [ldap_provider_get, this]
    · rw [hstate1]; exact hres2
    · rw [hstate1, hstate2]
      have : query_dn (add_mo (add_mo s mo1 true) mo2 true)
          (ucsc_base_dn ++ "/ldap-ext/provider-" ++ n) = some mo2 := by
        rw [← hdn2]; exact query_dn_add_mo_self (add_mo s mo1 true) mo2 true
      simp [ldap_provider_get, this]

/-- Witness for C8: creating `p3` twice on the example state, first with port
389 then with port 636, leaves the object of the second creation, as `get`
confirms. -/
theorem create_get_roundtrip_add_replace_witness :
    ∃ mo1 mo2 : Mo,
      (ldap_provider_create sExample "p3" (some "lowest-available") none
          (some "") (some "389") (some "no") none none none (some "30")
          (some "OpenLdap") (some "1") none []).result = Except.ok mo1
      ∧ (ldap_provider_get (ldap_provider_create sExample "p3"
          (some "lowest-available") none (some "") (some "389") (some "no")
          none none none (some "30") (some "OpenLdap") (some "1") none
          []).state "p3").result = Except.ok (some mo1)
      ∧ mo1.props = setPropMultiple
          (AaaLdapProvider (ucsc_base_dn ++ "/ldap-ext") "p3"
            (some "lowest-available") none (some "") (some "389") (some "no")
            none none none (some "30") (some "OpenLdap") (some "1") none).props []
      ∧ (ldap_provider_create (ldap_provider_create sExample "p3"
          (some "lowest-available") none (some "") (some "389") (some "no")
          none none none (some "30") (some "OpenLdap") (some "1") none
          []).state "p3" (some "lowest-available") none (some "") (some "636")
          (some "no") none none none (some "30") (some "OpenLdap") (some "1")
          none []).result = Except.ok mo2
      ∧ (ldap_provider_get (ldap_provider_create (ldap_provider_create sExample
          "p3" (some "lowest-available") none (some "") (some "389") (some "no")
          none none none (some "30") (some "OpenLdap") (some "1") none
          []).state "p3" (some "lowest-available") none (some "") (some "636")
          (some "no") none none none (some "30") (some "OpenLdap") (some "1")
          none []).state "p3").result = Except.ok (some mo2)
      ∧ mo2.props = setPropMultiple
          (AaaLdapProvider (ucsc_base_dn ++ "/ldap-ext") "p3"
            (some "lowest-available") none (some "") (some "636") (some "no")
            none none none (some "30") (some "OpenLdap") (some "1") none).props [] :=
  create_get_roundtrip_add_replace sExample "p3"
    (some "lowest-available") none (some "") (some "389") (some "no") none
    none none (some "30") (some "OpenLdap") (some "1") none []
    (some "lowest-available") none (some "") (some "636") (some "no") none
    none none (some "30") (some "OpenLdap") (some "1") none []
    (fun h => Option.noConfusion h)

/-- C9: `ldap_provider_create` first queries the fixed `ldap-ext` base path
and raises an OperationError — creating nothing and touching nothing — when
that base managed object is absent, whereas `ldap_group_map_create` and
`ldap_provider_group_create` perform no existence check at all (their call
sequence contains no query) and submit their add-with-replace followed by a
commit unconditionally under the same base path. -/
theorem provider_create_checks_base_others_do_not (s : RemoteState) (n : String)
    (order rootdn basedn port enable_ssl filter attr key timeout vendor
     retries descr : Option String)
    (kwargs : List (String × Option String)) :
    (query_dn s (ucsc_base_dn ++ "/ldap-ext") = none →
        (ldap_provider_create s n order rootdn basedn port enable_ssl filter
            attr key timeout vendor retries descr kwargs).result
          = Except.error (PyError.ucscOperationError "ldap_provider_create"
              "LDAP MO doesn't exist")
        ∧ (ldap_provider_create s n order rootdn basedn port enable_ssl filter
            attr key timeout vendor retries descr kwargs).state = s
        ∧ (ldap_provider_create s n order rootdn basedn port enable_ssl filter
            attr key timeout vendor retries descr kwargs).calls
          = [SdkCall.queryDn (ucsc_base_dn ++ "/ldap-ext")])
    ∧ (∃ mo : Mo,
        (ldap_group_map_create s n descr kwargs).result = Except.ok mo
        ∧ mo.dn = (ucsc_base_dn ++ "/ldap-ext") ++ "/ldapgroup-" ++ n
        ∧ (ldap_group_map_create s n descr kwargs).state = add_mo s mo true
        ∧ (ldap_group_map_create s n descr kwargs).calls
          = [SdkCall.addMo mo true, SdkCall.commit])
    ∧ (∃ mo : Mo,
        (ldap_provider_group_create s n descr kwargs).result = Except.ok mo
        ∧ mo.dn = (ucsc_base_dn ++ "/ldap-ext") ++ "/providergroup-" ++ n
        ∧ (ldap_provider_group_create s n descr kwargs).state = add_mo s mo true
        ∧ (ldap_provider_group_create s n descr kwargs).calls
          = [SdkCall.addMo mo true, SdkCall.commit]) := by
  refine ⟨?_, ?_, ?_⟩
  · intro hq
    refine ⟨?_, ?_, ?_⟩ <;> simp [ldap_provider_create, hq]
  · exact ⟨{ AaaLdapGroup (ucsc_base_dn ++ "/ldap-ext") n descr with
      props := setPropMultiple (AaaLdapGroup (ucsc_base_dn ++ "/ldap-ext") n descr).props kwargs },
      rfl, rfl, rfl, rfl⟩
  · exact ⟨{ AaaProviderGroup (ucsc_base_dn ++ "/ldap-ext") n descr with
      props := setPropMultiple (AaaProviderGroup (ucsc_base_dn ++ "/ldap-ext") n descr).props kwargs },
      rfl, rfl, rfl, rfl⟩

/-- Witness for C9: on the empty remote state, creating a provider fails at
the base check, while creating a group map succeeds without any check. -/
theorem provider_create_checks_base_others_do_not_witness :
    (ldap_provider_create sEmpty "p1" (some "lowest-available") none (some "")
        (some "389") (some "no") none none none (some "30") (some "OpenLdap")
        (some "1") none []).result
      = Except.error (PyError.ucscOperationError "ldap_provider_create"
          "LDAP MO doesn't exist")
    ∧ (∃ mo : Mo, (ldap_group_map_create sEmpty "g9" none []).result = Except.ok mo) := by
  constructor
  · exact ((provider_create_checks_base_others_do_not sEmpty "p1"
      (some "lowest-available") none (some "") (some "389") (some "no") none
      none none (some "30") (some "OpenLdap") (some "1") none []).1 rfl).1
  · obtain ⟨mo, hres, -, -, -⟩ := (provider_create_checks_base_others_do_not
      sEmpty "g9" (some "lowest-available") none (some "") (some "389")
      (some "no") none none none (some "30") (some "OpenLdap") (some "1")
      none []).2.1
    exact ⟨mo, hres⟩

end UcscLdap
